import Mathlib

/-!
Verification of the session core of the Gaia voice-agent program (src/main.py).

The program wires a pipecat voice pipeline: it seeds a conversation context
with a single system-role persona message, builds a seven-stage pipeline,
and installs two transport event handlers.  `on_client_connected` appends a
time-of-day dependent system directive directly to the shared `messages`
list and queues one context frame to trigger generation;
`on_client_disconnected` cancels the pipeline task.

Pure data (message texts, the pipeline stage order, the hour branching) is
embedded directly from src/main.py.  The behaviour of the pipecat library
itself (`PipelineTask.cancel`, the two context aggregators, stage shutdown
after cancellation) is not under src/; those parts are modelled from the
spec and are marked as such in their doc comments.
-/

/-- A chat message as stored in the conversation context: a role tag
(`"system"`, `"user"` or `"assistant"`) and text content. -/
structure Message where
  role : String
  content : String
deriving DecidableEq, Repr

/-- The persona directive text seeded at session construction
(src/main.py lines 56–92), transcribed verbatim. -/
def personaContent : String :=
  "You are Gaia, a friendly and professional insurance assistant for Mutual of Omaha. Your personality is:\n\nPERSONALITY TRAITS:\n- Warm, caring, and genuinely interested in helping families\n- Patient and understanding, especially with seniors\n- Knowledgeable but never condescending\n- Trustworthy and reliable - you've been helping families for years\n- Empathetic listener who remembers personal details\n\nYOUR ROLE:\n1. Warmly introduce yourself as Gaia from Mutual of Omaha\n2. Identify their insurance needs with genuine care\n3. Qualify prospects for Medicare, Life, Disability, or Annuity products  \n4. Capture information for specialist follow-up\n5. Never be pushy - focus on helping them find the right protection\n\nCOMPANY CONTEXT:\n- Mutual of Omaha has served families since 1909 - over 115 years of trust\n- We specialize in Medicare Supplement, Life Insurance, and Financial products\n- Our mission is protecting families' financial security and peace of mind\n\nCONVERSATION STYLE:\n- Speak naturally and conversationally (under 20 words per response)\n- Use their name once you learn it\n- Ask ONE question at a time\n- Show genuine concern: \"I want to make sure you're properly protected\"\n- Reference your experience: \"In my years helping families...\"\n\nQUALIFICATION PROCESS:\n1. \"Hi, this is Gaia from Mutual of Omaha. I'm here to help with your insurance needs.\"\n2. Get their name and ask if they have a few minutes to chat\n3. \"What brings you to Mutual of Omaha today?\" (discover their interest)\n4. Qualify: age range, current coverage, timeline, specific concerns\n5. Collect contact info with care: \"What's the best number to reach you?\"\n6. \"I'll have one of our specialists call you. They'll take great care of you.\"\n\nStart by introducing yourself as Gaia and ask how you can help them today."

/-- The initial `messages` list of src/main.py lines 53–94: a single
system-role persona directive. -/
def messages : List Message := [{ role := "system", content := personaContent }]

/-- The seven stage kinds composed into the pipeline
(src/main.py lines 101–111). -/
inductive Stage
  | transportInput
  | stt
  | userContextAggregator
  | llm
  | tts
  | transportOutput
  | assistantContextAggregator
deriving DecidableEq, Repr

/-- The pipeline: the ordered stage list exactly as constructed at
src/main.py lines 101–111. -/
def pipeline : List Stage :=
  [Stage.transportInput, Stage.stt, Stage.userContextAggregator, Stage.llm,
   Stage.tts, Stage.transportOutput, Stage.assistantContextAggregator]

/-- The off-hours directive string (src/main.py line 130). -/
def offHoursMessage : String :=
  "Explain that you're available after hours to help with their insurance needs."

/-- The business-hours directive string (src/main.py line 132). -/
def businessHoursMessage : String :=
  "Explain that you're here to help while our other agents are with other families."

/-- `context_message` as computed in `on_client_connected`
(src/main.py lines 129–132): a pure function of the current hour. -/
def context_message (current_hour : Nat) : String :=
  if current_hour < 8 ∨ current_hour > 17 then offHoursMessage
  else businessHoursMessage

/-- The content of the system message appended on connect: the f-string of
src/main.py line 138. -/
def connectContent (current_hour : Nat) : String :=
  "Start by warmly introducing yourself as Gaia from Mutual of Omaha. "
    ++ context_message current_hour
    ++ " Ask how you can help them today."

/-- The system-role message appended on connect (src/main.py lines 136–139). -/
def connectMessage (current_hour : Nat) : Message :=
  { role := "system", content := connectContent current_hour }

/-- Items injected at the pipeline head by `task.queue_frames`.  The only
frame the program ever injects is the context frame obtained from
`context_aggregator.user().get_context_frame()` (src/main.py line 142). -/
inductive Frame
  | contextFrame
deriving DecidableEq, Repr

/-- The observable session state: the shared `messages` list, the frames
injected at the pipeline head, and — modelled from the spec, since the
pipecat `PipelineTask` is not under src/ — the partially generated text of
an in-flight generation, the cancellation flag and the released-resources
flag of the single pipeline task. -/
structure AgentState where
  messages : List Message
  queuedFrames : List Frame
  pendingGeneration : Option String
  taskCancelled : Bool
  resourcesReleased : Bool
deriving DecidableEq, Repr

/-- The state right after `init_voice_agent` constructs the context and
the task: the seeded `messages`, nothing queued, no generation in flight. -/
def initState : AgentState := ⟨messages, [], none, false, false⟩

/-- Modelled from the spec: `PipelineTask.cancel` is pipecat library code,
not under src/.  Per §4.3 it signals stages to stop, drains and discards
in-flight items (the queued frames and any partially generated text) and
releases stage resources; the committed context survives. -/
def cancelTask (st : AgentState) : AgentState :=
  { st with taskCancelled := true, pendingGeneration := none,
            queuedFrames := [], resourcesReleased := true }

/-- The `on_client_connected` handler (src/main.py lines 122–142): append
the hour-dependent system directive directly to `messages`, then queue one
context frame to trigger generation. -/
def on_client_connected (current_hour : Nat) (st : AgentState) : AgentState :=
  { st with messages := st.messages ++ [connectMessage current_hour],
            queuedFrames := st.queuedFrames ++ [Frame.contextFrame] }

/-- The `on_client_disconnected` handler (src/main.py lines 145–148): its
only action on the session state is `task.cancel()`. -/
def on_client_disconnected (st : AgentState) : AgentState := cancelTask st

/-- The events that drive the session.  `connected`/`disconnected` are the
channel events handled in src/main.py; the remaining three are the
pipeline-internal events that touch the context, modelled from the spec
(§4.2, §6) because the aggregators and the generation stage are pipecat
library code: a final transcript makes the user aggregator append one
user message, and a generation emits tokens and, on completion, makes the
assistant aggregator append one assistant message. -/
inductive SessionEvent
  | connected (current_hour : Nat)
  | disconnected
  | finalTranscript (text : String)
  | generationStart
  | generationToken (tok : String)
  | generationComplete
deriving DecidableEq, Repr

/-- One step of the session.  The two handlers run exactly as in
src/main.py (they do not check the cancellation flag).  The pipeline
events are modelled from the spec: after `cancel()` the stages stop
accepting items (§4.3, §5), so they are no-ops on a cancelled task. -/
def stepEvent (e : SessionEvent) (st : AgentState) : AgentState :=
  match e with
  | SessionEvent.connected h => on_client_connected h st
  | SessionEvent.disconnected => on_client_disconnected st
  | SessionEvent.finalTranscript text =>
      if st.taskCancelled then st
      else { st with messages := st.messages ++ [⟨"user", text⟩] }
  | SessionEvent.generationStart =>
      if st.taskCancelled then st
      else { st with pendingGeneration := some "" }
  | SessionEvent.generationToken tok =>
      if st.taskCancelled then st
      else
        match st.pendingGeneration with
        | some p => { st with pendingGeneration := some (p ++ tok) }
        | none => st
  | SessionEvent.generationComplete =>
      if st.taskCancelled then st
      else
        match st.pendingGeneration with
        | some p => { st with messages := st.messages ++ [⟨"assistant", p⟩],
                              pendingGeneration := none }
        | none => st

/-- Run a sequence of session events from a state. -/
def runEvents (evs : List SessionEvent) (st : AgentState) : AgentState :=
  evs.foldl (fun s e => stepEvent e s) st

/-- `s` contains `sub` as a contiguous substring. -/
def strContains (s sub : String) : Prop := ∃ a b : String, s = a ++ sub ++ b

/-- The first system-role message of a message list. -/
def firstSystemMessage (msgs : List Message) : Option Message :=
  msgs.find? (fun m => m.role == "system")

/-- The assistant-role messages of a message list. -/
def assistantMessages (msgs : List Message) : List Message :=
  msgs.filter (fun m => m.role == "assistant")

/-- Scans a character list for two adjacent characters `c`, `d`. -/
def containsPair (c d : Char) : List Char → Bool
  | [] => false
  | [_] => false
  | a :: b :: rest => (a == c && b == d) || containsPair c d (b :: rest)

lemma strContains_trans {s t u : String} (h1 : strContains s t)
    (h2 : strContains t u) : strContains s u := by
  obtain ⟨a, b, rfl⟩ := h1
  obtain ⟨c, d, rfl⟩ := h2
  exact ⟨a ++ c, d ++ b, by simp [String.append_assoc]⟩

lemma containsPair_of_append (c d : Char) (s t : List Char) :
    containsPair c d (s ++ c :: d :: t) = true := by
  induction s with
  | nil => simp [containsPair]
  | cons a s ih =>
      rcases hx : s ++ c :: d :: t with _ | ⟨x, r⟩
      · rcases s with _ | ⟨y, ys⟩ <;> simp at hx
      · rw [hx] at ih
        rw [List.cons_append, hx]
        simp [containsPair, ih]

lemma no_pair_of_not_containsPair {c d : Char} {w : String}
    (hw : containsPair c d w.data = false) : ¬ strContains w (String.mk [c, d]) := by
  rintro ⟨a, b, hab⟩
  have hdata : w.data = a.data ++ c :: d :: b.data := by
    have h := congrArg String.data hab
    simpa [String.data_append] using h
  rw [hdata, containsPair_of_append] at hw
  cases hw

/-- The persona text does not contain the off-hours directive: the
directive contains the adjacent characters "af" (in "after"), while the
persona text nowhere contains that pair. -/
lemma persona_no_offhours : ¬ strContains personaContent offHoursMessage := by
  intro h
  have haf : strContains offHoursMessage (String.mk ['a', 'f']) :=
    ⟨"Explain that you're available ",
     "ter hours to help with their insurance needs.", rfl⟩
  have hpair : containsPair 'a' 'f' personaContent.data = false := by
    set_option maxRecDepth 40000 in rfl
  exact no_pair_of_not_containsPair hpair (strContains_trans h haf)

lemma messages_prefix_stepEvent (e : SessionEvent) (st : AgentState) :
    st.messages <+: (stepEvent e st).messages := by
  cases e with
  | connected h => exact List.prefix_append _ _
  | disconnected => exact List.prefix_rfl
  | finalTranscript text =>
      simp only [stepEvent]
      split
      · exact List.prefix_rfl
      · exact List.prefix_append _ _
  | generationStart =>
      simp only [stepEvent]
      split <;> exact List.prefix_rfl
  | generationToken tok =>
      simp only [stepEvent]
      split
      · exact List.prefix_rfl
      · split <;> exact List.prefix_rfl
  | generationComplete =>
      simp only [stepEvent]
      split
      · exact List.prefix_rfl
      · split
        · exact List.prefix_append _ _
        · exact List.prefix_rfl

lemma messages_prefix_runEvents (evs : List SessionEvent) (st : AgentState) :
    st.messages <+: (runEvents evs st).messages := by
  induction evs generalizing st with
  | nil => exact List.prefix_rfl
  | cons e evs ih =>
      exact (messages_prefix_stepEvent e st).trans (ih (stepEvent e st))

lemma cancelled_stepEvent_invariant (e : SessionEvent) (st : AgentState)
    (hc : st.taskCancelled = true) (hp : st.pendingGeneration = none) :
    (stepEvent e st).taskCancelled = true
    ∧ (stepEvent e st).pendingGeneration = none
    ∧ assistantMessages (stepEvent e st).messages = assistantMessages st.messages := by
  cases e with
  | connected h =>
      refine ⟨hc, hp, ?_⟩
      simp [stepEvent, on_client_connected, assistantMessages, connectMessage,
        List.filter_append]
  | disconnected => exact ⟨rfl, rfl, rfl⟩
  | finalTranscript text => simp [stepEvent, hc, hp]
  | generationStart => simp [stepEvent, hc, hp]
  | generationToken tok => simp [stepEvent, hc, hp]
  | generationComplete => simp [stepEvent, hc, hp]

lemma cancelled_runEvents_invariant (evs : List SessionEvent) (st : AgentState)
    (hc : st.taskCancelled = true) (hp : st.pendingGeneration = none) :
    (runEvents evs st).taskCancelled = true
    ∧ (runEvents evs st).pendingGeneration = none
    ∧ assistantMessages (runEvents evs st).messages = assistantMessages st.messages := by
  induction evs generalizing st with
  | nil => exact ⟨hc, hp, rfl⟩
  | cons e evs ih =>
      obtain ⟨hc1, hp1, hm1⟩ := cancelled_stepEvent_invariant e st hc hp
      obtain ⟨hc2, hp2, hm2⟩ := ih (stepEvent e st) hc1 hp1
      exact ⟨hc2, hp2, hm2.trans hm1⟩

/-- C1 (counterexample): after `connected` at hour 22, the first
system-role Message of the Context is the persona seeded at construction,
and the persona does not contain the off-hours directive — so the claim
that the *first* system Message contains the off-hours directive is false
on the code. -/
theorem first_system_message_lacks_offhours_directive :
    firstSystemMessage (runEvents [SessionEvent.connected 22] initState).messages
      = some { role := "system", content := personaContent }
    ∧ ¬ strContains personaContent offHoursMessage :=
  ⟨rfl, persona_no_offhours⟩

/-- C1 (amended): after a `connected` event at hour 22 (off-hours) the
Context holds exactly the persona followed by the appended system-role
directive; that appended (last) system Message contains the off-hours
directive, no user-role Message is present anywhere in the Context, and
the single queued trigger frame invokes generation on that snapshot. -/
theorem offhours_connect_appends_offhours_directive :
    (runEvents [SessionEvent.connected 22] initState).messages
      = [{ role := "system", content := personaContent }, connectMessage 22]
    ∧ strContains (connectContent 22) offHoursMessage
    ∧ ((runEvents [SessionEvent.connected 22] initState).messages.all
        (fun m => !(m.role == "user"))) = true
    ∧ (runEvents [SessionEvent.connected 22] initState).queuedFrames
        = [Frame.contextFrame] :=
  ⟨rfl,
   ⟨"Start by warmly introducing yourself as Gaia from Mutual of Omaha. ",
    " Ask how you can help them today.", rfl⟩,
   rfl, rfl⟩

/-- C2 (counterexample): a second `connected` event with no intervening
`disconnected` is not a no-op — it changes the session state (a third
message is appended), so it is not treated as a recorded protocol
violation. -/
theorem second_connected_event_not_noop :
    runEvents [SessionEvent.connected 10, SessionEvent.connected 10] initState
      ≠ runEvents [SessionEvent.connected 10] initState := by
  intro h
  have h3 : (runEvents [SessionEvent.connected 10, SessionEvent.connected 10]
      initState).messages.length = 3 := rfl
  have h2 : (runEvents [SessionEvent.connected 10]
      initState).messages.length = 2 := rfl
  rw [h] at h3
  omega

/-- C2 (amended): the program tracks no per-channel sessions and records
no protocol violation: a second `connected` event simply runs the handler
again, appending a second system directive and queueing a second trigger
frame on the same single Session Task (whose cancellation state is
untouched, and no second task exists to be affected). -/
theorem second_connected_event_appends_again (h₁ h₂ : Nat) (st : AgentState) :
    runEvents [SessionEvent.connected h₁, SessionEvent.connected h₂] st
      = { st with
            messages := st.messages ++ [connectMessage h₁, connectMessage h₂],
            queuedFrames := st.queuedFrames
              ++ [Frame.contextFrame, Frame.contextFrame] } := by
  cases st
  simp [runEvents, stepEvent, on_client_connected]

/-- C3: the directive is a pure function of the wall-clock hour with two
disjoint ranges — off-hours for h < 8 or h > 17, business-hours for
8 ≤ h ≤ 17 (hour 17 included) — and the connect handler appends the
resulting system-role Message by a direct write to the Context's message
list (the aggregator events, which write only user/assistant roles, are
not involved). -/
theorem connect_directive_two_ranges (h : Nat) (st : AgentState) :
    ((h < 8 ∨ 17 < h) → context_message h = offHoursMessage)
    ∧ (8 ≤ h → h ≤ 17 → context_message h = businessHoursMessage)
    ∧ (on_client_connected h st).messages
        = st.messages ++ [{ role := "system", content := connectContent h }] := by
  refine ⟨fun hh => ?_, fun h8 h17 => ?_, rfl⟩
  · rw [context_message, if_pos hh]
  · rw [context_message, if_neg]
    rintro (hlt | hgt) <;> omega

/-- Witness for C3 at hours 22 (off-hours) and 10 (business-hours). -/
theorem connect_directive_two_ranges_witness :
    context_message 22 = offHoursMessage
    ∧ context_message 10 = businessHoursMessage :=
  ⟨(connect_directive_two_ranges 22 initState).1 (Or.inr (by decide)),
   (connect_directive_two_ranges 10 initState).2.1 (by decide) (by decide)⟩

/-- C4: the pipeline is exactly the ordered seven-stage sequence audio
input → STT → user aggregator → LLM → TTS → audio output → assistant
aggregator, so transcription and history-merge precede generation, and
synthesis and history-record follow it, in that fixed order. -/
theorem pipeline_stage_order :
    pipeline = [Stage.transportInput, Stage.stt, Stage.userContextAggregator,
      Stage.llm, Stage.tts, Stage.transportOutput,
      Stage.assistantContextAggregator]
    ∧ pipeline.indexOf Stage.transportInput < pipeline.indexOf Stage.stt
    ∧ pipeline.indexOf Stage.stt < pipeline.indexOf Stage.userContextAggregator
    ∧ pipeline.indexOf Stage.userContextAggregator < pipeline.indexOf Stage.llm
    ∧ pipeline.indexOf Stage.llm < pipeline.indexOf Stage.tts
    ∧ pipeline.indexOf Stage.tts < pipeline.indexOf Stage.transportOutput
    ∧ pipeline.indexOf Stage.transportOutput
        < pipeline.indexOf Stage.assistantContextAggregator := by decide

/-- C5: every `connected` event queues exactly one context trigger frame,
and does so on the state in which the hour-dependent directive has been
appended, so generation is invoked on that snapshot without user speech. -/
theorem connect_queues_one_trigger (h : Nat) (st : AgentState) :
    (on_client_connected h st).queuedFrames
      = st.queuedFrames ++ [Frame.contextFrame]
    ∧ (on_client_connected h st).messages = st.messages ++ [connectMessage h] :=
  ⟨rfl, rfl⟩

/-- C6: the disconnect handler's only action on the session state is
`task.cancel()`: it equals the modelled cancel, and in particular the
committed Context survives unchanged. -/
theorem disconnect_only_cancels (st : AgentState) :
    on_client_disconnected st = cancelTask st
    ∧ (on_client_disconnected st).messages = st.messages :=
  ⟨rfl, rfl⟩

/-- C7: every Message seeded at construction has role system, and the
message sequence is append-only — the seeded messages remain a prefix
(hence the leading entries) of the Context in every state reachable by
any sequence of session events. -/
theorem context_seeded_system_and_append_only (evs : List SessionEvent) :
    (messages.all (fun m => m.role == "system")) = true
    ∧ messages <+: (runEvents evs initState).messages :=
  ⟨rfl, messages_prefix_runEvents evs initState⟩

/-- C8: `cancel()` is idempotent — cancelling twice yields exactly the
same state (context, queued items, pending generation, released
resources) as cancelling once. -/
theorem cancel_idempotent (st : AgentState) :
    cancelTask (cancelTask st) = cancelTask st := rfl

/-- C9: if a generation is in flight (partial text `p` pending) when the
disconnect handler cancels the Session Task, then whatever events follow,
the assistant-role entries of the Context never change — the partial text
is discarded and no (truncated) assistant Message for that generation is
ever appended. -/
theorem cancel_midgeneration_no_assistant (st : AgentState) (p : String)
    (_hp : st.pendingGeneration = some p) (evs : List SessionEvent) :
    assistantMessages (runEvents evs (on_client_disconnected st)).messages
      = assistantMessages st.messages
    ∧ (runEvents evs (on_client_disconnected st)).pendingGeneration = none := by
  have h := cancelled_runEvents_invariant evs (on_client_disconnected st) rfl rfl
  exact ⟨h.2.2, h.2.1⟩

/-- Witness for C9: a task cancelled with partial text "Hel" pending, then
fed a further token and a completion event, commits no assistant entry. -/
theorem cancel_midgeneration_no_assistant_witness :
    assistantMessages (runEvents
        [SessionEvent.generationToken "lo", SessionEvent.generationComplete]
        (on_client_disconnected
          ⟨[{ role := "system", content := "s" }], [], some "Hel", false, false⟩)).messages
      = assistantMessages [{ role := "system", content := "s" }]
    ∧ (runEvents
        [SessionEvent.generationToken "lo", SessionEvent.generationComplete]
        (on_client_disconnected
          ⟨[{ role := "system", content := "s" }], [], some "Hel", false, false⟩)).pendingGeneration
      = none :=
  cancel_midgeneration_no_assistant
    ⟨[{ role := "system", content := "s" }], [], some "Hel", false, false⟩
    "Hel" rfl [SessionEvent.generationToken "lo", SessionEvent.generationComplete]

/-- C10: for every hour, the message appended by the connect handler has
role system and content equal to the fixed introduction, then the
hour-dependent middle sentence, then the fixed closing instruction — only
the middle sentence (one of the two directives) varies with the hour. -/
theorem connect_message_template (h : Nat) (st : AgentState) :
    (connectMessage h).role = "system"
    ∧ (connectMessage h).content
        = "Start by warmly introducing yourself as Gaia from Mutual of Omaha. "
            ++ context_message h ++ " Ask how you can help them today."
    ∧ (context_message h = offHoursMessage
        ∨ context_message h = businessHoursMessage)
    ∧ (on_client_connected h st).messages = st.messages ++ [connectMessage h] := by
  refine ⟨rfl, rfl, ?_, rfl⟩
  unfold context_message
  split
  · exact Or.inl rfl
  · exact Or.inr rfl
